import Mathlib

/-!
Shallow embedding of the filter and view-state synchronization core of the
project-map dashboard (src/src/components/ProjectMap.js) and of the
spreadsheet-to-feature conversion utility
(src/src/utils/convertExcelToGeoJSON.js).

Conventions of the embedding:
  * JavaScript numbers are modelled as rationals (the code performs no
    operation whose result depends on floating-point rounding in the
    properties we verify).
  * A nullable string value (the stateName argument of applyFilter) is an
    Option String; its JavaScript truthiness is non-null and non-empty.
  * Mapbox filter expressions are modelled by a small expression type that
    mirrors the exact arrays the code builds, together with their
    documented evaluation semantics.
  * The React component state is a record, and each user-facing operation
    of the component is a state-transition function.  The nested
    functional-updater pattern used by the click handlers
    (setSelectedYears(y => ...)) reads the latest committed state, so in
    the sequential model a handler invocation receives the current state.
-/

namespace Rea

/-! ### Mapbox filter expressions, as built by applyFilter -/

/-- A single conjunct pushed onto the conditions array of applyFilter:
a state equality test or a membership test for one categorical dimension. -/
inductive Cond
| stateEq (name : String)
| yearIn (ys : List String)
| statusIn (ss : List String)
| typeIn (ts : List String)
deriving DecidableEq, Repr

/-- The value passed to map.setFilter: null, a bare condition, or a
conjunction wrapping two or more conditions. -/
inductive MapFilter
| null
| single (c : Cond)
| allOf (cs : List Cond)
deriving DecidableEq, Repr

/-- The region part of the conditions array: the code pushes a state
equality conjunct only when stateName is truthy (non-null, non-empty). -/
def regionConds : Option String → List Cond
| some n => if n ≠ "" then [Cond.stateEq n] else []
| none => []

/-- The conditions array built by applyFilter (ProjectMap.js lines
111-115), in push order: region first, then years, statuses, types, each
only when the selection set is non-empty. -/
def filterConditions (years statuses types : List String)
    (stateName : Option String) : List Cond :=
  regionConds stateName
    ++ (if years ≠ [] then [Cond.yearIn years] else [])
    ++ (if statuses ≠ [] then [Cond.statusIn statuses] else [])
    ++ (if types ≠ [] then [Cond.typeIn types] else [])

/-- The filter value computed by applyFilter (lines 116-118): null when no
conditions, the bare condition when exactly one, otherwise the
conjunction of all of them. -/
def compileFilter (years statuses types : List String)
    (stateName : Option String) : MapFilter :=
  match filterConditions years statuses types stateName with
  | [] => MapFilter.null
  | [c] => MapFilter.single c
  | cs => MapFilter.allOf cs

/-- Properties of one project point feature, as read by the filter
expressions through the get operator. -/
structure PointProps where
  state : String
  year : String
  status : String
  type : String
deriving DecidableEq, Repr

/-- Mapbox evaluation of a single conjunct against a feature. -/
def evalCond : Cond → PointProps → Bool
| Cond.stateEq n, p => p.state == n
| Cond.yearIn ys, p => ys.contains p.year
| Cond.statusIn ss, p => ss.contains p.status
| Cond.typeIn ts, p => ts.contains p.type

/-- Mapbox evaluation of a filter value: a null filter shows every
feature, a conjunction requires every conjunct. -/
def evalFilter : MapFilter → PointProps → Bool
| MapFilter.null, _ => true
| MapFilter.single c, p => evalCond c p
| MapFilter.allOf cs, p => cs.all (fun c => evalCond c p)

/-- JavaScript truthiness of the nullable stateName argument. -/
def truthyName : Option String → Bool
| some n => n != ""
| none => false

/-! ### Percentage guard (pct, line 41) and the technology shares -/

/-- The pct helper of ProjectMap.js line 41: a falsy (zero) total yields 0
instead of dividing; Math.round is the round of the rationals. -/
def pct (num total : ℚ) : ℤ :=
  if total ≠ 0 then round (num / total * 100) else 0

/-- Aggregate properties of one enriched state record, as consumed by the
side panel (numeric geojson properties modelled as rationals). -/
structure StateProps where
  shapeName : String
  total : ℚ
  completed : ℚ
  ongoing : ℚ
  yet_to_mobilize : ℚ
  pct_completed : ℚ
  solar_street_light : ℚ
  grid : ℚ
  solar_mini_grid : ℚ
  solar_home_system : ℚ
  other_type : ℚ
deriving DecidableEq, Repr

/-- The five per-technology percentage shares computed by the technology
side panel (renderSidePanel, lines 380-401): pct of each technology count
against the state total. -/
def techShares (d : StateProps) : List ℤ :=
  [ pct d.solar_street_light d.total
  , pct d.grid d.total
  , pct d.solar_mini_grid d.total
  , pct d.solar_home_system d.total
  , pct d.other_type d.total ]

/-! ### Point paint rules (Performance and Technology circle colors) -/

/-- Boolean test that the pattern occurs at the head of the character
list. -/
def leadMatch : List Char → List Char → Bool
| [], _ => true
| _ :: _, [] => false
| a :: as, b :: bs => a == b && leadMatch as bs

/-- Boolean substring search over character lists. -/
def subSearch (pat : List Char) : List Char → Bool
| [] => leadMatch pat []
| b :: bs => leadMatch pat (b :: bs) || subSearch pat bs

/-- Mapbox semantics of the in operator on strings: the keyword is a
substring of the input string. -/
def strContains (s pat : String) : Bool := subSearch pat.toList s.toList

/-- The circle-color paint expression currently set on the point layer:
the status match expression (initial and Performance view) or the
technology case expression. -/
inductive PaintRule
| statusMatch
| techCase
deriving DecidableEq, Repr

/-- Evaluation of the two circle-color paint expressions against a point
feature.  statusMatch is the match expression of lines 142-148 (and the
initial layer paint); techCase is the case expression of lines 151-158,
whose branches test substring containment in source order. -/
def evalPaintRule : PaintRule → PointProps → String
| PaintRule.statusMatch, p =>
  if p.status == "COMPLETED" then "#2ecc71"
  else if p.status == "ONGOING" then "#f39c12"
  else if p.status == "YET TO MOBILIZE" then "#E63946"
  else "#333333"
| PaintRule.techCase, p =>
  if strContains p.type "SOLAR STREET LIGHT" && !(strContains p.type "MINI GRID")
    then "#f39c12"
  else if strContains p.type "MINI GRID" then "#3498db"
  else if strContains p.type "SOLAR HOME" then "#9b59b6"
  else if strContains p.type "GRID" then "#E63946"
  else "#95a5a6"

/-! ### The component state machine -/

/-- An instruction issued to the external renderer. -/
inductive Instr
| setFilter (layer : String) (f : MapFilter)
| setPaint (layer prop : String)
| setLayout (layer prop value : String)
| flyTo
| fitBounds
deriving DecidableEq, Repr

/-- True on the instructions that change what the renderer draws for a
layer (filter, paint or layout); camera moves are excluded. -/
def isStyleInstr : Instr → Bool
| Instr.setFilter _ _ => true
| Instr.setPaint _ _ => true
| Instr.setLayout _ _ _ => true
| _ => false

/-- The state of the ProjectMap component together with the observable
state of the renderer it drives.  pointLayerLoaded models whether
getLayer on the point layer succeeds (the layer is added in the load
handler); mapReady is the readiness flag set 500ms later; rendererFilter
is the filter currently applied to the point layer; pendingSamples
records the delay of each scheduled visible-count re-sample;
instructions is the log of renderer calls issued so far. -/
structure AppState where
  view : String
  selectedYears : List String
  selectedStatus : List String
  selectedTypes : List String
  activeState : Option String
  stateData : Option StateProps
  pointCount : Option Nat
  mapReady : Bool
  pointLayerLoaded : Bool
  rendererFilter : MapFilter
  circleColor : PaintRule
  pendingSamples : List Nat
  instructions : List Instr
deriving DecidableEq, Repr

/-- The component state at mount (before the load handler has run). -/
def initialState : AppState :=
  { view := "performance"
  , selectedYears := []
  , selectedStatus := []
  , selectedTypes := []
  , activeState := none
  , stateData := none
  , pointCount := none
  , mapReady := false
  , pointLayerLoaded := false
  , rendererFilter := MapFilter.null
  , circleColor := PaintRule.statusMatch
  , pendingSamples := []
  , instructions := [] }

/-- applyFilter (lines 109-124): bail out when the point layer does not
exist yet; otherwise compile and set the filter and schedule a 300ms
deferred re-sample of the visible count (the count itself is not touched
synchronously). -/
def applyFilterStep (s : AppState) (years statuses types : List String)
    (stateName : Option String) : AppState :=
  if s.pointLayerLoaded then
    let f := compileFilter years statuses types stateName
    { s with rendererFilter := f
           , instructions := s.instructions ++ [Instr.setFilter "project-points" f]
           , pendingSamples := s.pendingSamples ++ [300] }
  else s

/-- switchView (lines 127-160): a no-op unless mapReady; otherwise set
the view, clear the active state and its panel data, issue the
visibility and opacity instructions, and in Performance or Technology
set the corresponding circle-color paint expression. -/
def switchViewStep (s : AppState) (newView : String) : AppState :=
  if s.mapReady then
    let isCov := newView == "coverage"
    let isPerf := newView == "performance"
    let isTech := newView == "technology"
    let s1 := { s with view := newView, activeState := none, stateData := none }
    let s2 := { s1 with instructions := s1.instructions ++
      [ Instr.setLayout "project-points" "visibility" (if isCov then "none" else "visible")
      , Instr.setLayout "state-choropleth" "visibility" (if isCov then "visible" else "none")
      , Instr.setPaint "state-fill" "fill-opacity" ] }
    let s3 := if isPerf then
      { s2 with circleColor := PaintRule.statusMatch
              , instructions := s2.instructions ++ [Instr.setPaint "project-points" "circle-color"] }
      else s2
    if isTech then
      { s3 with circleColor := PaintRule.techCase
              , instructions := s3.instructions ++ [Instr.setPaint "project-points" "circle-color"] }
      else s3
  else s

/-- toggleYear (lines 163-167): flip membership of the year in the
selection and re-apply the filter with the new years and the current
other selections. -/
def toggleYearStep (s : AppState) (y : String) : AppState :=
  let next := if s.selectedYears.contains y
    then s.selectedYears.filter (fun v => v != y)
    else s.selectedYears ++ [y]
  applyFilterStep { s with selectedYears := next }
    next s.selectedStatus s.selectedTypes s.activeState

/-- toggleStatus (lines 168-172). -/
def toggleStatusStep (s : AppState) (st : String) : AppState :=
  let next := if s.selectedStatus.contains st
    then s.selectedStatus.filter (fun v => v != st)
    else s.selectedStatus ++ [st]
  applyFilterStep { s with selectedStatus := next }
    s.selectedYears next s.selectedTypes s.activeState

/-- toggleType (lines 173-177). -/
def toggleTypeStep (s : AppState) (t : String) : AppState :=
  let next := if s.selectedTypes.contains t
    then s.selectedTypes.filter (fun v => v != t)
    else s.selectedTypes ++ [t]
  applyFilterStep { s with selectedTypes := next }
    s.selectedYears s.selectedStatus next s.activeState

/-- clearAll (lines 178-183): empty every selection, clear the active
state, re-apply the empty filter and fly the camera home. -/
def clearAllStep (s : AppState) : AppState :=
  let s1 := { s with selectedYears := [], selectedStatus := [], selectedTypes := []
                   , activeState := none, stateData := none }
  let s2 := applyFilterStep s1 [] [] [] none
  { s2 with instructions := s2.instructions ++ [Instr.flyTo] }

/-- The toUpperCase normalization of the clicked shape name: every
character upper-cased. -/
def upperName (s : String) : String := String.mk (s.toList.map Char.toUpper)

/-- handleStateClick (lines 293-307): upper-case the clicked shapeName,
store it as the active state with its aggregate properties, fit the
camera to the feature, and re-apply the filter with the current
categorical selections (read through the nested functional updaters)
plus the new state name. -/
def handleStateClickStep (s : AppState) (shapeName : String)
    (props : StateProps) : AppState :=
  let stateName := upperName shapeName
  let s1 := { s with activeState := some stateName, stateData := some props
                   , instructions := s.instructions ++ [Instr.fitBounds] }
  applyFilterStep s1 s1.selectedYears s1.selectedStatus s1.selectedTypes (some stateName)

/-- The bare map click handler (lines 313-327): when the click hits no
feature on the state or point layers, clear the active state and
re-apply the filter with the current categorical selections and no state
name; otherwise do nothing. -/
def mapClickStep (s : AppState) (hits : Nat) : AppState :=
  if hits = 0 then
    let s1 := { s with activeState := none, stateData := none }
    applyFilterStep s1 s1.selectedYears s1.selectedStatus s1.selectedTypes none
  else s

/-- The user-facing events of the component. -/
inductive Event
| toggleYear (y : String)
| toggleStatus (st : String)
| toggleType (t : String)
| clearAll
| switchView (v : String)
| stateClick (shapeName : String) (props : StateProps)
| mapClick (hits : Nat)
deriving DecidableEq, Repr

/-- One step of the component: dispatch an event to its handler. -/
def step (s : AppState) : Event → AppState
| Event.toggleYear y => toggleYearStep s y
| Event.toggleStatus st => toggleStatusStep s st
| Event.toggleType t => toggleTypeStep s t
| Event.clearAll => clearAllStep s
| Event.switchView v => switchViewStep s v
| Event.stateClick n props => handleStateClickStep s n props
| Event.mapClick hits => mapClickStep s hits

/-- True on the three categorical selection toggles. -/
def isToggle : Event → Bool
| Event.toggleYear _ => true
| Event.toggleStatus _ => true
| Event.toggleType _ => true
| _ => false

/-! ### The deferred visible-count re-sample

Each applyFilter call schedules one setTimeout of 300ms that queries the
renderer and publishes a count.  The single-threaded event loop fires
timers in order of their fire time (schedule time plus delay), breaking
ties in scheduling order; each firing publishes its sampled result over
the previous one.  SampleTimer records one scheduled re-sample together
with the count it will observe when it fires. -/

/-- One scheduled visible-count re-sample. -/
structure SampleTimer where
  scheduledAt : Nat
  delay : Nat
  result : Nat
deriving DecidableEq, Repr

/-- The instant at which a timer fires. -/
def fireTime (t : SampleTimer) : Nat := t.scheduledAt + t.delay

/-- Insert a timer, scheduled before every timer of the given list, at
its firing position: before the first timer with an equal or later fire
time. -/
def insertTimer (t : SampleTimer) : List SampleTimer → List SampleTimer
| [] => [t]
| u :: us => if fireTime t ≤ fireTime u then t :: u :: us else u :: insertTimer t us

/-- The firing order of a list of timers given in scheduling order:
sorted by fire time, ties resolved in favour of the earlier-scheduled
timer. -/
def firingOrder : List SampleTimer → List SampleTimer
| [] => []
| t :: ts => insertTimer t (firingOrder ts)

/-- Run every pending timer in firing order, each publishing its sampled
count over the previous value; returns the finally published count. -/
def publishAll (ts : List SampleTimer) (init : Option Nat) : Option Nat :=
  (firingOrder ts).foldl (fun _ t => some t.result) init

/-! ### The spreadsheet-to-feature conversion utility -/

/-- A JavaScript cell value: a number, a string, or undefined (a missing
column). -/
inductive JsVal
| num (q : ℚ)
| str (s : String)
| undef
deriving DecidableEq, Repr

/-- JavaScript truthiness of a cell value: zero, the empty string and
undefined are falsy. -/
def JsVal.truthy : JsVal → Bool
| JsVal.num q => q != 0
| JsVal.str s => s != ""
| JsVal.undef => false

/-- One spreadsheet row as produced by sheet_to_json: the two coordinate
columns plus the remaining columns as an open key-value list. -/
structure Row where
  LONGITUDE : JsVal
  LATITUDE : JsVal
  rest : List (String × JsVal)
deriving DecidableEq, Repr

/-- The semantics of String.prototype.replace with a one-character string
pattern: only the first comma is replaced by a dot. -/
def replFirstComma : List Char → List Char
| [] => []
| c :: cs => if c = ',' then '.' :: cs else c :: replFirstComma cs

/-- Replace the first comma of a string by a dot. -/
def commaToDot (s : String) : String := String.mk (replFirstComma s.toList)

/-- A produced point feature: the two converted coordinates and the row
kept verbatim as properties. -/
structure Feature (α : Type) where
  lon : α
  lat : α
  properties : Row
deriving DecidableEq, Repr

/-- The String builtin applied to a cell value, parametrised by the
number-to-string formatting of the host. -/
def jsValString (numStr : ℚ → String) : JsVal → String
| JsVal.num q => numStr q
| JsVal.str s => s
| JsVal.undef => "undefined"

/-- convertExcelToGeoJSON, lines 15-27: keep the rows whose LONGITUDE and
LATITUDE are both truthy, and map each kept row to a feature whose
coordinates are the numeric conversion (the Number builtin, modelled by
the parameter toNum) of the string form of the cell with its first comma
replaced by a dot, and whose properties are the whole row. -/
def convertRows (α : Type) (toNum : String → α) (numStr : ℚ → String)
    (data : List Row) : List (Feature α) :=
  (data.filter (fun r => r.LONGITUDE.truthy && r.LATITUDE.truthy)).map
    (fun r =>
      { lon := toNum (commaToDot (jsValString numStr r.LONGITUDE))
      , lat := toNum (commaToDot (jsValString numStr r.LATITUDE))
      , properties := r })

/-! ### Helper lemmas -/

/-- Only a yearIn conjunct reads the year property of a feature. -/
theorem evalCond_year_irrel (c : Cond) (p : PointProps) (y2 : String)
    (h : ∀ ys, c ≠ Cond.yearIn ys) :
    evalCond c { p with year := y2 } = evalCond c p := by
  cases c with
  | stateEq n => simp [evalCond]
  | yearIn ys => exact absurd rfl (h ys)
  | statusIn ss => simp [evalCond]
  | typeIn ts => simp [evalCond]

/-- With an empty years selection, no conjunct of the conditions array is
a yearIn conjunct. -/
theorem filterConditions_no_year (statuses types : List String)
    (r : Option String) (c : Cond)
    (hc : c ∈ filterConditions [] statuses types r) (ys : List String) :
    c ≠ Cond.yearIn ys := by
  intro he
  subst he
  cases r <;> simp [filterConditions, regionConds] at hc

/-- Evaluating a conjunction of year-free conjuncts ignores the year
property. -/
theorem evalAll_year_irrel (cs : List Cond) (p : PointProps) (y2 : String)
    (h : ∀ c ∈ cs, ∀ ys, c ≠ Cond.yearIn ys) :
    cs.all (fun c => evalCond c { p with year := y2 })
      = cs.all (fun c => evalCond c p) := by
  induction cs with
  | nil => rfl
  | cons a t ih =>
    simp only [List.all_cons]
    rw [evalCond_year_irrel a p y2 (h a (List.mem_cons_self a t)),
      ih (fun c hc => h c (List.mem_cons_of_mem a hc))]

/-! ### Claim theorems -/

/-- Claim C2: the compiled predicate has one conjunct per non-empty
selection set plus one region-equality conjunct when the region is
truthy; zero conjuncts give the null (match-all) predicate, exactly one
gives the bare condition unwrapped, two or more give the conjunction of
all of them; the null predicate passes every feature; and an empty years
selection imposes no restriction on the year dimension (the predicate is
insensitive to the year property). -/
theorem predicate_compilation_shape (years statuses types : List String)
    (r : Option String) (p : PointProps) (y2 : String) :
    (filterConditions years statuses types r).length =
      ((if truthyName r then 1 else 0) + (if years ≠ [] then 1 else 0)
        + (if statuses ≠ [] then 1 else 0) + (if types ≠ [] then 1 else 0)) ∧
    (filterConditions years statuses types r = [] →
      compileFilter years statuses types r = MapFilter.null) ∧
    (∀ c, filterConditions years statuses types r = [c] →
      compileFilter years statuses types r = MapFilter.single c) ∧
    (2 ≤ (filterConditions years statuses types r).length →
      compileFilter years statuses types r
        = MapFilter.allOf (filterConditions years statuses types r)) ∧
    (∀ q : PointProps, evalFilter MapFilter.null q = true) ∧
    (years = [] →
      evalFilter (compileFilter years statuses types r) { p with year := y2 }
        = evalFilter (compileFilter years statuses types r) p) := by
  refine ⟨?_, ?_, ?_, ?_, fun q => rfl, ?_⟩
  · cases r <;> simp [filterConditions, regionConds, truthyName] <;>
      split_ifs <;> simp
  · intro h; simp [compileFilter, h]
  · intro c h; simp [compileFilter, h]
  · intro h2
    rcases hcs : filterConditions years statuses types r with _ | ⟨a, _ | ⟨b, t⟩⟩
    · rw [hcs] at h2; simp at h2
    · rw [hcs] at h2; simp at h2
    · simp [compileFilter, hcs]
  · intro hy
    subst hy
    unfold compileFilter
    rcases hcs : filterConditions [] statuses types r with _ | ⟨a, _ | ⟨b, t⟩⟩
    · rfl
    · simp only [evalFilter]
      exact evalCond_year_irrel a p y2
        (filterConditions_no_year statuses types r a (by rw [hcs]; exact List.mem_cons_self a []))
    · simp only [evalFilter]
      exact evalAll_year_irrel (a :: b :: t) p y2
        (fun c hc => filterConditions_no_year statuses types r c (by rw [hcs]; exact hc))

/-- Witness for C2 at a concrete input: one selected year and a region,
so two conjuncts wrapped in a conjunction, and with no years the
predicate ignores the year property. -/
theorem predicate_compilation_shape_wit :
    (filterConditions ["2022"] [] [] (some "LAGOS")).length =
      ((if truthyName (some "LAGOS") then 1 else 0) + (if ["2022"] ≠ ([] : List String) then 1 else 0)
        + (if ([] : List String) ≠ ([] : List String) then 1 else 0)
        + (if ([] : List String) ≠ ([] : List String) then 1 else 0)) ∧
    compileFilter ["2022"] [] [] (some "LAGOS")
      = MapFilter.allOf [Cond.stateEq "LAGOS", Cond.yearIn ["2022"]] ∧
    evalFilter (compileFilter [] ["ONGOING"] [] none)
      { state := "LAGOS", year := "2024", status := "ONGOING", type := "GRID" } = true := by
  refine ⟨(predicate_compilation_shape ["2022"] [] [] (some "LAGOS")
    { state := "", year := "", status := "", type := "" } "").1, ?_, by decide⟩
  have h := (predicate_compilation_shape ["2022"] [] [] (some "LAGOS")
    { state := "", year := "", status := "", type := "" } "").2.2.2.1 (by decide)
  rw [h]; decide

/-- Claim C9: the local percentage helper returns 0 whenever the total is
0 (never dividing in that case), so a state record with total 0 yields a
0 percent share for every technology. -/
theorem pct_zero_total_guard :
    (∀ num : ℚ, pct num 0 = 0) ∧
    (∀ d : StateProps, d.total = 0 → techShares d = [0, 0, 0, 0, 0]) := by
  constructor
  · intro num; simp [pct]
  · intro d h; simp [techShares, pct, h]

/-- Witness for C9: a concrete record with total 0 and non-zero
technology counts yields all-zero shares. -/
theorem pct_zero_total_guard_wit :
    techShares
      { shapeName := "LAGOS", total := 0, completed := 0, ongoing := 0
      , yet_to_mobilize := 0, pct_completed := 0, solar_street_light := 3
      , grid := 4, solar_mini_grid := 5, solar_home_system := 6
      , other_type := 7 } = [0, 0, 0, 0, 0] :=
  pct_zero_total_guard.2
    { shapeName := "LAGOS", total := 0, completed := 0, ongoing := 0
    , yet_to_mobilize := 0, pct_completed := 0, solar_street_light := 3
    , grid := 4, solar_mini_grid := 5, solar_home_system := 6
    , other_type := 7 } rfl

/-- Claim C6: switching to the Technology view installs the case paint
expression, under which a point is colored by substring tests on its
type token in the fixed source precedence: street light without mini
grid gives the first color, then mini grid, then home, then generic
grid, then the fallback, the earliest satisfied rule winning. -/
theorem technology_color_precedence (s : AppState) (p : PointProps)
    (hready : s.mapReady = true) :
    (switchViewStep s "technology").view = "technology" ∧
    (switchViewStep s "technology").circleColor = PaintRule.techCase ∧
    (strContains p.type "SOLAR STREET LIGHT" = true →
      strContains p.type "MINI GRID" = false →
      evalPaintRule PaintRule.techCase p = "#f39c12") ∧
    (strContains p.type "MINI GRID" = true →
      evalPaintRule PaintRule.techCase p = "#3498db") ∧
    (strContains p.type "SOLAR STREET LIGHT" = false →
      strContains p.type "MINI GRID" = false →
      strContains p.type "SOLAR HOME" = true →
      evalPaintRule PaintRule.techCase p = "#9b59b6") ∧
    (strContains p.type "SOLAR STREET LIGHT" = false →
      strContains p.type "MINI GRID" = false →
      strContains p.type "SOLAR HOME" = false →
      strContains p.type "GRID" = true →
      evalPaintRule PaintRule.techCase p = "#E63946") ∧
    (strContains p.type "SOLAR STREET LIGHT" = false →
      strContains p.type "MINI GRID" = false →
      strContains p.type "SOLAR HOME" = false →
      strContains p.type "GRID" = false →
      evalPaintRule PaintRule.techCase p = "#95a5a6") := by
  refine ⟨?_, ?_, ?_, ?_, ?_, ?_, ?_⟩
  · simp [switchViewStep, hready]
  · simp [switchViewStep, hready]
  · intro h1 h2; simp [evalPaintRule, h1, h2]
  · intro h2; simp [evalPaintRule, h2]
  · intro h1 h2 h3; simp [evalPaintRule, h1, h2, h3]
  · intro h1 h2 h3 h4; simp [evalPaintRule, h1, h2, h3, h4]
  · intro h1 h2 h3 h4; simp [evalPaintRule, h1, h2, h3, h4]

/-- Witness for C6: from a ready state, the composite token
GRID/SOLAR STREET LIGHT satisfies the street-light rule (it contains no
mini-grid substring), beating the generic grid rule, while
SOLAR MINI GRID/SOLAR STREET LIGHT is captured by the mini-grid rule. -/
theorem technology_color_precedence_wit :
    evalPaintRule PaintRule.techCase
      { state := "", year := "", status := ""
      , type := "GRID/SOLAR STREET LIGHT" } = "#f39c12" ∧
    evalPaintRule PaintRule.techCase
      { state := "", year := "", status := ""
      , type := "SOLAR MINI GRID/SOLAR STREET LIGHT" } = "#3498db" ∧
    (switchViewStep { initialState with mapReady := true } "technology").circleColor
      = PaintRule.techCase :=
  ⟨(technology_color_precedence { initialState with mapReady := true }
      { state := "", year := "", status := "", type := "GRID/SOLAR STREET LIGHT" }
      rfl).2.2.1 (by decide) (by decide),
   (technology_color_precedence { initialState with mapReady := true }
      { state := "", year := "", status := "", type := "SOLAR MINI GRID/SOLAR STREET LIGHT" }
      rfl).2.2.2.1 (by decide),
   (technology_color_precedence { initialState with mapReady := true }
      { state := "", year := "", status := "", type := "" } rfl).2.1⟩

/-- Claim C5: a view switch taken while the map is ready leaves the three
categorical selections untouched and resets the active region and its
region-derived panel data to absent, whatever the source and target
modes. -/
theorem view_switch_frame (s : AppState) (v : String)
    (hready : s.mapReady = true) :
    (switchViewStep s v).selectedYears = s.selectedYears ∧
    (switchViewStep s v).selectedStatus = s.selectedStatus ∧
    (switchViewStep s v).selectedTypes = s.selectedTypes ∧
    (switchViewStep s v).activeState = none ∧
    (switchViewStep s v).stateData = none ∧
    (switchViewStep s v).view = v := by
  simp only [switchViewStep, hready, if_true]
  split_ifs <;> simp

/-- Witness for C5: with years 2020 and 2021 selected and an active
region showing stats, switching to Coverage keeps the selection and
clears the region-derived data. -/
theorem view_switch_frame_wit :
    (switchViewStep
      { initialState with mapReady := true
                        , selectedYears := ["2020", "2021"]
                        , activeState := some "LAGOS" } "coverage").selectedYears
      = ["2020", "2021"] ∧
    (switchViewStep
      { initialState with mapReady := true
                        , selectedYears := ["2020", "2021"]
                        , activeState := some "LAGOS" } "coverage").activeState = none ∧
    (switchViewStep
      { initialState with mapReady := true
                        , selectedYears := ["2020", "2021"]
                        , activeState := some "LAGOS" } "coverage").stateData = none :=
  ⟨(view_switch_frame _ "coverage" rfl).1,
   (view_switch_frame _ "coverage" rfl).2.2.2.1,
   (view_switch_frame _ "coverage" rfl).2.2.2.2.1⟩

/-- Claim C3: a region click stores the upper-cased shape name as the
active region together with its aggregate properties, and recomputes the
renderer filter from the categorical selections current at click time
plus the new region; the resulting conditions array is the region
equality conjunct prepended to the conditions of the categorical
selections alone. -/
theorem region_click_recompute (s : AppState) (n : String)
    (props : StateProps) (hl : s.pointLayerLoaded = true) :
    (handleStateClickStep s n props).activeState = some (upperName n) ∧
    (handleStateClickStep s n props).stateData = some props ∧
    (handleStateClickStep s n props).rendererFilter
      = compileFilter s.selectedYears s.selectedStatus s.selectedTypes (some (upperName n)) ∧
    (upperName n ≠ "" →
      filterConditions s.selectedYears s.selectedStatus s.selectedTypes (some (upperName n))
        = Cond.stateEq (upperName n)
          :: filterConditions s.selectedYears s.selectedStatus s.selectedTypes none) := by
  refine ⟨?_, ?_, ?_, ?_⟩
  · simp [handleStateClickStep, applyFilterStep, hl]
  · simp [handleStateClickStep, applyFilterStep, hl]
  · simp [handleStateClickStep, applyFilterStep, hl]
  · intro h; simp [filterConditions, regionConds, h]

/-- Witness for C3: clicking Lagos with a year and a status selected
stores LAGOS and issues the three-conjunct filter. -/
theorem region_click_recompute_wit :
    (handleStateClickStep
      { initialState with pointLayerLoaded := true
                        , selectedYears := ["2022"]
                        , selectedStatus := ["ONGOING"] } "Lagos"
      { shapeName := "Lagos", total := 10, completed := 4, ongoing := 6
      , yet_to_mobilize := 0, pct_completed := 40, solar_street_light := 1
      , grid := 2, solar_mini_grid := 3, solar_home_system := 4
      , other_type := 0 }).activeState = some "LAGOS" ∧
    (handleStateClickStep
      { initialState with pointLayerLoaded := true
                        , selectedYears := ["2022"]
                        , selectedStatus := ["ONGOING"] } "Lagos"
      { shapeName := "Lagos", total := 10, completed := 4, ongoing := 6
      , yet_to_mobilize := 0, pct_completed := 40, solar_street_light := 1
      , grid := 2, solar_mini_grid := 3, solar_home_system := 4
      , other_type := 0 }).rendererFilter
      = MapFilter.allOf
          [Cond.stateEq "LAGOS", Cond.yearIn ["2022"], Cond.statusIn ["ONGOING"]] := by
  have h := region_click_recompute
    { initialState with pointLayerLoaded := true
                      , selectedYears := ["2022"]
                      , selectedStatus := ["ONGOING"] } "Lagos"
    { shapeName := "Lagos", total := 10, completed := 4, ongoing := 6
    , yet_to_mobilize := 0, pct_completed := 40, solar_street_light := 1
    , grid := 2, solar_mini_grid := 3, solar_home_system := 4
    , other_type := 0 } rfl
  refine ⟨?_, ?_⟩
  · rw [h.1]; decide
  · rw [h.2.2.1]; decide

/-- Claim C4: a click that hits no feature clears the active region and
its panel data, leaves the three categorical selections unchanged, and
re-issues the filter compiled from those selections with no region; the
conditions array of any filter is the region conjunct prepended to the
region-free conditions, so dropping the region removes exactly that
conjunct. -/
theorem empty_click_frame (s : AppState) (hl : s.pointLayerLoaded = true) :
    (mapClickStep s 0).selectedYears = s.selectedYears ∧
    (mapClickStep s 0).selectedStatus = s.selectedStatus ∧
    (mapClickStep s 0).selectedTypes = s.selectedTypes ∧
    (mapClickStep s 0).activeState = none ∧
    (mapClickStep s 0).stateData = none ∧
    (mapClickStep s 0).rendererFilter
      = compileFilter s.selectedYears s.selectedStatus s.selectedTypes none ∧
    (∀ years statuses types r,
      filterConditions years statuses types r
        = regionConds r ++ filterConditions years statuses types none) := by
  refine ⟨?_, ?_, ?_, ?_, ?_, ?_, ?_⟩
  · simp [mapClickStep, applyFilterStep, hl]
  · simp [mapClickStep, applyFilterStep, hl]
  · simp [mapClickStep, applyFilterStep, hl]
  · simp [mapClickStep, applyFilterStep, hl]
  · simp [mapClickStep, applyFilterStep, hl]
  · simp [mapClickStep, applyFilterStep, hl]
  · intro years statuses types r
    simp [filterConditions, regionConds]

/-- Witness for C4: with year 2022 and status ONGOING selected and LAGOS
active, an empty-area click keeps the two categorical conjuncts and
drops only the region conjunct. -/
theorem empty_click_frame_wit :
    (mapClickStep
      { initialState with pointLayerLoaded := true
                        , selectedYears := ["2022"]
                        , selectedStatus := ["ONGOING"]
                        , activeState := some "LAGOS"
                        , rendererFilter := MapFilter.allOf
                            [Cond.stateEq "LAGOS", Cond.yearIn ["2022"]
                            , Cond.statusIn ["ONGOING"]] } 0).rendererFilter
      = MapFilter.allOf [Cond.yearIn ["2022"], Cond.statusIn ["ONGOING"]] ∧
    (mapClickStep
      { initialState with pointLayerLoaded := true
                        , selectedYears := ["2022"]
                        , selectedStatus := ["ONGOING"]
                        , activeState := some "LAGOS"
                        , rendererFilter := MapFilter.allOf
                            [Cond.stateEq "LAGOS", Cond.yearIn ["2022"]
                            , Cond.statusIn ["ONGOING"]] } 0).selectedYears = ["2022"] ∧
    (mapClickStep
      { initialState with pointLayerLoaded := true
                        , selectedYears := ["2022"]
                        , selectedStatus := ["ONGOING"]
                        , activeState := some "LAGOS"
                        , rendererFilter := MapFilter.allOf
                            [Cond.stateEq "LAGOS", Cond.yearIn ["2022"]
                            , Cond.statusIn ["ONGOING"]] } 0).activeState = none := by
  have h := empty_click_frame
    { initialState with pointLayerLoaded := true
                      , selectedYears := ["2022"]
                      , selectedStatus := ["ONGOING"]
                      , activeState := some "LAGOS"
                      , rendererFilter := MapFilter.allOf
                          [Cond.stateEq "LAGOS", Cond.yearIn ["2022"]
                          , Cond.statusIn ["ONGOING"]] } rfl
  exact ⟨by rw [h.2.2.2.2.2.1]; decide, h.1, h.2.2.2.1⟩

/-- A year toggle changes only the years selection, the renderer filter,
the instruction log and the pending samples; in particular the other
selections, the active state and the readiness flags survive. -/
theorem toggleYearStep_fields (s : AppState) (y : String) :
    (toggleYearStep s y).selectedYears
      = (if s.selectedYears.contains y
          then s.selectedYears.filter (fun v => v != y)
          else s.selectedYears ++ [y]) ∧
    (toggleYearStep s y).selectedStatus = s.selectedStatus ∧
    (toggleYearStep s y).selectedTypes = s.selectedTypes ∧
    (toggleYearStep s y).activeState = s.activeState ∧
    (toggleYearStep s y).pointLayerLoaded = s.pointLayerLoaded ∧
    (toggleYearStep s y).mapReady = s.mapReady := by
  simp only [toggleYearStep, applyFilterStep]
  split_ifs <;> simp

/-- A region click computes its filter from the state it receives, which
by the functional-updater reading is the current one. -/
theorem stateClick_filter_of_current (s : AppState) (n : String)
    (props : StateProps) (hl : s.pointLayerLoaded = true) :
    (step s (Event.stateClick n props)).rendererFilter
      = compileFilter s.selectedYears s.selectedStatus s.selectedTypes
          (some (upperName n)) := by
  simp [step, handleStateClickStep, applyFilterStep, hl]

/-- Claim C1: the click handlers are registered once, yet an invocation
after any sequence of selection mutations compiles its predicate from
the selection values current at firing time; in particular, after three
sequential fresh year toggles the next region click observes all three
mutations, and an empty-area click likewise recomputes from the current
values. -/
theorem stable_event_bridge (s0 : AppState) (es : List Event) (n : String)
    (props : StateProps) (y1 y2 y3 : String)
    (hl : (es.foldl step s0).pointLayerLoaded = true)
    (h0 : s0.pointLayerLoaded = true)
    (hb1 : s0.selectedYears.contains y1 = false)
    (hb2 : (s0.selectedYears ++ [y1]).contains y2 = false)
    (hb3 : (s0.selectedYears ++ [y1, y2]).contains y3 = false) :
    ((step (es.foldl step s0) (Event.stateClick n props)).rendererFilter
      = compileFilter (es.foldl step s0).selectedYears
          (es.foldl step s0).selectedStatus
          (es.foldl step s0).selectedTypes (some (upperName n))) ∧
    ((step (es.foldl step s0) (Event.mapClick 0)).rendererFilter
      = compileFilter (es.foldl step s0).selectedYears
          (es.foldl step s0).selectedStatus
          (es.foldl step s0).selectedTypes none) ∧
    ((step (step (step s0 (Event.toggleYear y1)) (Event.toggleYear y2))
        (Event.toggleYear y3)).selectedYears
      = s0.selectedYears ++ [y1, y2, y3]) ∧
    ((step (step (step (step s0 (Event.toggleYear y1)) (Event.toggleYear y2))
        (Event.toggleYear y3)) (Event.stateClick n props)).rendererFilter
      = compileFilter (s0.selectedYears ++ [y1, y2, y3])
          s0.selectedStatus s0.selectedTypes (some (upperName n))) := by
  have f1 := toggleYearStep_fields s0 y1
  have f2 := toggleYearStep_fields (toggleYearStep s0 y1) y2
  have f3 := toggleYearStep_fields (toggleYearStep (toggleYearStep s0 y1) y2) y3
  have hy1 : (toggleYearStep s0 y1).selectedYears = s0.selectedYears ++ [y1] := by
    rw [f1.1, hb1]; simp
  have hy2 : (toggleYearStep (toggleYearStep s0 y1) y2).selectedYears
      = s0.selectedYears ++ [y1, y2] := by
    rw [f2.1, hy1, hb2]
    simp
  have hy3 : (toggleYearStep (toggleYearStep (toggleYearStep s0 y1) y2) y3).selectedYears
      = s0.selectedYears ++ [y1, y2, y3] := by
    rw [f3.1, hy2, hb3]
    simp
  have hst3 : (toggleYearStep (toggleYearStep (toggleYearStep s0 y1) y2) y3).selectedStatus
      = s0.selectedStatus := by rw [f3.2.1, f2.2.1, f1.2.1]
  have hty3 : (toggleYearStep (toggleYearStep (toggleYearStep s0 y1) y2) y3).selectedTypes
      = s0.selectedTypes := by rw [f3.2.2.1, f2.2.2.1, f1.2.2.1]
  have hl3 : (toggleYearStep (toggleYearStep (toggleYearStep s0 y1) y2) y3).pointLayerLoaded
      = true := by rw [f3.2.2.2.2.1, f2.2.2.2.2.1, f1.2.2.2.2.1, h0]
  refine ⟨stateClick_filter_of_current _ n props hl, ?_, ?_, ?_⟩
  · simp [step, mapClickStep, applyFilterStep, hl]
  · simpa [step] using hy3
  · have h := stateClick_filter_of_current
      (toggleYearStep (toggleYearStep (toggleYearStep s0 y1) y2) y3) n props hl3
    simp only [step] at h ⊢
    rw [h, hy3, hst3, hty3]

/-- Witness for C1: registration-time state has nothing selected; after
toggling 2020, 2021 and 2022 the region click compiles its filter from
all three years. -/
theorem stable_event_bridge_wit :
    (step (step (step (step { initialState with pointLayerLoaded := true }
        (Event.toggleYear "2020")) (Event.toggleYear "2021"))
        (Event.toggleYear "2022"))
      (Event.stateClick "Lagos"
        { shapeName := "Lagos", total := 0, completed := 0, ongoing := 0
        , yet_to_mobilize := 0, pct_completed := 0, solar_street_light := 0
        , grid := 0, solar_mini_grid := 0, solar_home_system := 0
        , other_type := 0 })).rendererFilter
      = compileFilter ["2020", "2021", "2022"] [] [] (some "LAGOS") := by
  have h := stable_event_bridge { initialState with pointLayerLoaded := true }
    [] "Lagos"
    { shapeName := "Lagos", total := 0, completed := 0, ongoing := 0
    , yet_to_mobilize := 0, pct_completed := 0, solar_street_light := 0
    , grid := 0, solar_mini_grid := 0, solar_home_system := 0
    , other_type := 0 }
    "2020" "2021" "2022" rfl rfl rfl rfl rfl
  rw [h.2.2.2]
  decide

/-- Timers whose fire times strictly increase in scheduling order fire
exactly in scheduling order. -/
theorem firingOrder_sorted_id (ts : List SampleTimer)
    (h : List.Chain' (fun a b => fireTime a < fireTime b) ts) :
    firingOrder ts = ts := by
  induction ts with
  | nil => rfl
  | cons t ts ih =>
    rw [firingOrder, ih (List.Chain'.tail h)]
    cases ts with
    | nil => rfl
    | cons u us =>
      have hlt : fireTime t < fireTime u := (List.chain'_cons.mp h).1
      simp [insertTimer, le_of_lt hlt]

/-- Folding the publications over a firing sequence ends with the result
of the last timer. -/
theorem foldl_publish_last (l : List SampleTimer) (t : SampleTimer)
    (init : Option Nat) (h : l.getLast? = some t) :
    l.foldl (fun _ x => some x.result) init = some t.result := by
  induction l generalizing init with
  | nil => simp at h
  | cons a l ih =>
    cases l with
    | nil =>
      simp at h
      subst h
      rfl
    | cons b l2 =>
      rw [List.getLast?_cons_cons] at h
      exact ih (some a.result) h

/-- Equal fixed delays turn a strictly increasing scheduling order into a
strictly increasing firing order. -/
theorem chain_fireTime (ts : List SampleTimer)
    (hchain : List.Chain' (fun a b => a.scheduledAt < b.scheduledAt) ts)
    (hdelay : ∀ u ∈ ts, u.delay = 300) :
    List.Chain' (fun a b => fireTime a < fireTime b) ts := by
  induction ts with
  | nil => exact List.chain'_nil
  | cons a l ih =>
    cases l with
    | nil => simp
    | cons b l2 =>
      rw [List.chain'_cons] at hchain ⊢
      refine ⟨?_, ih hchain.2 (fun u hu => hdelay u (List.mem_cons_of_mem a hu))⟩
      have ha := hdelay a (by simp)
      have hb := hdelay b (by simp)
      simp only [fireTime, ha, hb]
      omega

/-- Claim C7: a filter application never publishes a count synchronously;
it schedules one re-sample with the fixed 300ms delay, and when several
re-samples are scheduled at strictly increasing instants with that fixed
delay, they resolve in scheduling order, so the finally published count
is the result of the most recently scheduled sample and never a stale
sample resolving after a newer one. -/
theorem count_resample_deferred_last_wins (s : AppState)
    (years statuses types : List String) (r : Option String)
    (ts : List SampleTimer) (t : SampleTimer) (init : Option Nat)
    (hchain : List.Chain' (fun a b => a.scheduledAt < b.scheduledAt) ts)
    (hdelay : ∀ u ∈ ts, u.delay = 300)
    (hlast : ts.getLast? = some t) :
    (applyFilterStep s years statuses types r).pointCount = s.pointCount ∧
    (s.pointLayerLoaded = true →
      (applyFilterStep s years statuses types r).pendingSamples
        = s.pendingSamples ++ [300]) ∧
    firingOrder ts = ts ∧
    publishAll ts init = some t.result := by
  have hf := firingOrder_sorted_id ts (chain_fireTime ts hchain hdelay)
  refine ⟨?_, ?_, hf, ?_⟩
  · simp only [applyFilterStep]
    split_ifs <;> rfl
  · intro hl; simp [applyFilterStep, hl]
  · rw [publishAll, hf]
    exact foldl_publish_last ts t init hlast

/-- Witness for C7: three samples scheduled at instants 0, 40 and 90 with
the fixed 300ms delay; the finally published count is the third sample's
result even though the first observed a larger count. -/
theorem count_resample_deferred_last_wins_wit :
    (applyFilterStep { initialState with pointLayerLoaded := true }
      [] [] [] none).pointCount = none ∧
    publishAll
      [ { scheduledAt := 0, delay := 300, result := 500 }
      , { scheduledAt := 40, delay := 300, result := 120 }
      , { scheduledAt := 90, delay := 300, result := 37 } ] none = some 37 := by
  have h := count_resample_deferred_last_wins
    { initialState with pointLayerLoaded := true } [] [] [] none
    [ { scheduledAt := 0, delay := 300, result := 500 }
    , { scheduledAt := 40, delay := 300, result := 120 }
    , { scheduledAt := 90, delay := 300, result := 37 } ]
    { scheduledAt := 90, delay := 300, result := 37 } none
    (List.chain'_cons.mpr ⟨by norm_num, List.chain'_cons.mpr
      ⟨by norm_num, List.chain'_singleton _⟩⟩)
    (by decide) (by decide)
  exact ⟨h.1, h.2.2.2⟩

/-- Counterexample to Claim C8 as stated: at the mount state, before the
initial load has completed (both readiness indicators false), a year
toggle is not a no-op — it mutates the categorical selection. -/
theorem toggle_before_ready_not_noop :
    initialState.mapReady = false ∧
    initialState.pointLayerLoaded = false ∧
    (step initialState (Event.toggleYear "2019")).selectedYears = ["2019"] ∧
    step initialState (Event.toggleYear "2019") ≠ initialState := by
  refine ⟨rfl, rfl, by decide, ?_⟩
  intro h
  have h2 := congrArg AppState.selectedYears h
  simp [step, toggleYearStep, applyFilterStep, initialState] at h2

/-- Claim C8 amended: before the initial load completes, no event issues
a filter, paint or layout instruction to the renderer and the applied
filter is untouched, and the view switch checks the readiness flag and
is a complete no-op; however the selection toggles and clearAll do not
check the flag and still mutate the local selection state. -/
theorem readiness_guards_renderer_instructions (s : AppState) (e : Event)
    (v : String) (hl : s.pointLayerLoaded = false)
    (hr : s.mapReady = false) :
    (step s e).instructions.filter isStyleInstr
      = s.instructions.filter isStyleInstr ∧
    (step s e).rendererFilter = s.rendererFilter ∧
    (step s e).pendingSamples = s.pendingSamples ∧
    switchViewStep s v = s := by
  have hsw : ∀ w, switchViewStep s w = s := by
    intro w; simp [switchViewStep, hr]
  refine ⟨?_, ?_, ?_, hsw v⟩ <;>
    cases e <;>
      simp [step, toggleYearStep, toggleStatusStep, toggleTypeStep,
        clearAllStep, handleStateClickStep, mapClickStep, applyFilterStep,
        hl, hsw, isStyleInstr, List.filter_append] <;>
      split_ifs <;>
      simp [List.filter_append, isStyleInstr]

/-- Witness for C8 amended: at the mount state, a year toggle, a clear
and a region click leave the applied filter and the style instruction
log untouched, and a view switch is a no-op. -/
theorem readiness_guards_renderer_instructions_wit :
    (step initialState (Event.toggleYear "2019")).rendererFilter
      = initialState.rendererFilter ∧
    (step initialState Event.clearAll).instructions.filter isStyleInstr
      = initialState.instructions.filter isStyleInstr ∧
    switchViewStep initialState "technology" = initialState :=
  ⟨(readiness_guards_renderer_instructions initialState
      (Event.toggleYear "2019") "technology" rfl rfl).2.1,
   (readiness_guards_renderer_instructions initialState
      Event.clearAll "technology" rfl rfl).1,
   (readiness_guards_renderer_instructions initialState
      Event.clearAll "technology" rfl rfl).2.2.2⟩

/-- Claim C10: the conversion keeps exactly the rows whose LONGITUDE and
LATITUDE are both truthy (in order, with the entire original row kept as
the feature properties); a coordinate equal to the number 0 or the empty
string is excluded exactly like a missing one; each kept row's
coordinates are the numeric conversion of the string form of the cell
with only its first comma replaced by a dot. -/
theorem excel_conversion (α : Type) (toNum : String → α) (numStr : ℚ → String)
    (data : List Row) (r : Row) :
    ((convertRows α toNum numStr data).map (fun f => f.properties)
      = data.filter (fun q => q.LONGITUDE.truthy && q.LATITUDE.truthy)) ∧
    (r.LONGITUDE.truthy = false ∨ r.LATITUDE.truthy = false →
      convertRows α toNum numStr [r] = []) ∧
    (r.LONGITUDE = JsVal.num 0 → convertRows α toNum numStr [r] = []) ∧
    (r.LATITUDE = JsVal.str "" → convertRows α toNum numStr [r] = []) ∧
    (r.LONGITUDE = JsVal.undef → convertRows α toNum numStr [r] = []) ∧
    (r.LONGITUDE.truthy = true → r.LATITUDE.truthy = true →
      convertRows α toNum numStr [r]
        = [{ lon := toNum (commaToDot (jsValString numStr r.LONGITUDE))
           , lat := toNum (commaToDot (jsValString numStr r.LATITUDE))
           , properties := r }]) ∧
    commaToDot "6,4521" = "6.4521" ∧
    commaToDot "4,5,6" = "4.5,6" := by
  refine ⟨?_, ?_, ?_, ?_, ?_, ?_, by decide, by decide⟩
  · rw [convertRows, List.map_map]
    exact List.map_id _
  · rintro (h | h) <;> simp [convertRows, h]
  · intro h; simp [convertRows, h, JsVal.truthy]
  · intro h; simp [convertRows, h, JsVal.truthy]
  · intro h; simp [convertRows, h, JsVal.truthy]
  · intro h1 h2; simp [convertRows, h1, h2]

/-- Witness for C10: a row with comma-decimal coordinate strings becomes
one feature with dot-decimal coordinate strings and the row as
properties, using the identity as the numeric conversion. -/
theorem excel_conversion_wit :
    convertRows String (fun x => x) (fun _ => "")
      [ { LONGITUDE := JsVal.str "6,4521", LATITUDE := JsVal.str "7,1"
        , rest := [("STATE", JsVal.str "LAGOS")] } ]
      = [ { lon := "6.4521", lat := "7.1"
          , properties :=
            { LONGITUDE := JsVal.str "6,4521", LATITUDE := JsVal.str "7,1"
            , rest := [("STATE", JsVal.str "LAGOS")] } } ] := by
  have h := (excel_conversion String (fun x => x) (fun _ => "")
    [ { LONGITUDE := JsVal.str "6,4521", LATITUDE := JsVal.str "7,1"
      , rest := [("STATE", JsVal.str "LAGOS")] } ]
    { LONGITUDE := JsVal.str "6,4521", LATITUDE := JsVal.str "7,1"
    , rest := [("STATE", JsVal.str "LAGOS")] }).2.2.2.2.2.1 (by decide) (by decide)
  rw [h]
  decide

end Rea
